import Mathlib

set_option maxHeartbeats 1000000

/-!
Formal model of the emap crate (an egui slippy-map widget): tile
addressing, the viewport pan/zoom state, the Web-Mercator projection, and
the caching tile loader, together with theorems checking the crate's
specification against this model.

Modelling conventions:
- Rust machine integers become Int/Nat; Rust i32 division and remainder
  (truncation toward zero) become Int.tdiv and Int.tmod.
- The f64/f32 arithmetic of the viewport and UV computations is modelled
  over ℚ. All concrete inputs used in evaluations below are small dyadic
  rationals, on which the source's floating-point operations are exact,
  so the ℚ model computes the same values as the compiled program.
- The transcendental projection functions are modelled over ℝ.
- The loader's shared HashMap and the mpsc channel become an association
  list and a FIFO list; the background worker and the spawned fetch
  pipeline become explicit step functions.
-/

/-- A tile identifier as in src/lib.rs: integer x, y and zoom level z.
The source's z is a u8; it is modelled as Nat here, with the u8 wrapping
subtraction of release builds modelled separately by u8_sub. -/
structure TileId where
  x : Int
  y : Int
  z : Nat
deriving DecidableEq, Repr

/-- An axis-aligned rectangle given by its min and max corners, as
egui's Rect (Rect::from_min_max stores the given corners unchanged).
Coordinates are rationals modelling the source's float values. -/
structure Rect where
  minX : ℚ
  minY : ℚ
  maxX : ℚ
  maxY : ℚ
deriving DecidableEq, Repr

/-- egui Rect::width: max.x - min.x. -/
def Rect.width (r : Rect) : ℚ := r.maxX - r.minX

/-- egui Rect::height: max.y - min.y. -/
def Rect.height (r : Rect) : ℚ := r.maxY - r.minY

/-- The identity UV rectangle Rect::from_min_max((0,0),(1,1)) used by
find_texture_handle. -/
def unitRect : Rect := ⟨0, 0, 1, 1⟩

/-- TileId::zoom_out_with_uv from src/lib.rs (lines 539-561), translated
literally: the parent tile is (x/2, y/2, z-1) with i32 truncating
division, and the new UV rectangle selects, inside the given uv
rectangle, the quadrant determined by the parity of x (horizontal, the
variables named uv_top/uv_bottom in the source) and of y (vertical, the
variables named uv_left/uv_right in the source). -/
def TileId.zoom_out_with_uv (t : TileId) (uv : Rect) : TileId × Rect :=
  let newTile : TileId := ⟨t.x.tdiv 2, t.y.tdiv 2, t.z - 1⟩
  let uvLeft : ℚ := if t.y.tmod 2 = 0 then 0 else 1/2
  let uvRight : ℚ := uvLeft + 1/2
  let uvTop : ℚ := if t.x.tmod 2 = 0 then 0 else 1/2
  let uvBottom : ℚ := uvTop + 1/2
  let uvLeft2 : ℚ := uv.minY + uv.height * uvLeft
  let uvRight2 : ℚ := uv.minY + uv.height * uvRight
  let uvTop2 : ℚ := uv.minX + uv.width * uvTop
  let uvBottom2 : ℚ := uv.minX + uv.width * uvBottom
  (newTile, ⟨uvTop2, uvLeft2, uvBottom2, uvRight2⟩)

/-- k-fold application of zoom_out_with_uv, exactly as the fallback walk
in EMap::find_texture_handle iterates it (each step feeds the previous
step's tile and UV rectangle into the next call). -/
def zoom_out_iter : Nat → TileId × Rect → TileId × Rect
  | 0, p => p
  | n + 1, p => zoom_out_iter n (p.1.zoom_out_with_uv p.2)

/-- Modelled from the spec: the "correct sub-region" of the ancestor k
zoom levels up that is covered by tile t — horizontally the interval
[(x mod 2^k)/2^k, (x mod 2^k + 1)/2^k] and vertically the same with y.
Cropping the ancestor raster to this rectangle reproduces the area of
tile t. This is the spec-side comparator for the refinement claim about
zoom_out_with_uv; it is not part of the source. -/
def correct_subrect (t : TileId) (k : Nat) : Rect :=
  let n : ℚ := 2 ^ k
  let fx : ℚ := (t.x.emod (2 ^ k) : ℤ)
  let fy : ℚ := (t.y.emod (2 ^ k) : ℤ)
  ⟨fx / n, fy / n, (fx + 1) / n, (fy + 1) / n⟩

/-! ## Viewport state (Widget::ui zoom and drag branches) -/

/-- The source computes 2.0f64.powf(zoom). Over ℚ this is modelled
exactly at integer zoom values (where f64 powf is exact) and is given
the junk value 0 elsewhere; every concrete evaluation below uses an
integer zoom, and the general viewport theorems treat pow2 as opaque. -/
def pow2 (q : ℚ) : ℚ := if q.den = 1 then (2 : ℚ) ^ q.num else 0

/-- f64::clamp(lo, hi). -/
def clampQ (v lo hi : ℚ) : ℚ := max lo (min v hi)

/-- The viewport state held in EMapState: continuous zoom and the
normalized-plane center (x, y). -/
structure ViewState where
  zoom : ℚ
  x : ℚ
  y : ℚ
deriving DecidableEq, Repr

/-- geo::Rect::new(c1, c2), which normalizes the two corners into
per-axis min and max. -/
structure GRect where
  minX : ℚ
  minY : ℚ
  maxX : ℚ
  maxY : ℚ
deriving DecidableEq, Repr

/-- geo::Rect::new: swap coordinates so that min ≤ max on each axis. -/
def geoRectNew (p1 p2 : ℚ × ℚ) : GRect :=
  ⟨min p1.1 p2.1, min p1.2 p2.2, max p1.1 p2.1, max p1.2 p2.2⟩

/-- view_rect from src/lib.rs: a square of side max(w,h) centered on the
w×h viewport. -/
def view_rect (w h : ℚ) : GRect :=
  let major := max w h
  geoRectNew (w/2 - major/2, h/2 - major/2) (w/2 + major/2, h/2 + major/2)

/-- desired_tiles = major / pixel_tile_width in Widget::ui. -/
def desired_tiles (w h tileSize : ℚ) : ℚ := max w h / tileSize

/-- norm_rect from src/lib.rs: the visible normalized-plane rectangle
around center (x,y) at the given zoom. -/
def norm_rect (x y zoom dt : ℚ) : GRect :=
  let nf := pow2 zoom
  let tside := 1 / nf
  let east := x - (1/2 * dt * tside)
  let west := x + (1/2 * dt * tside)
  let north := y + (1/2 * dt * tside)
  let south := y - (1/2 * dt * tside)
  geoRectNew (east, north) (west, south)

/-- scale from src/lib.rs: linear rescaling of v from the source range
to the target range. Division by zero follows the ℚ convention 1/0 = 0
(the source never divides by zero on the inputs considered here). -/
def scale (v srcMin srcMax tgtMin tgtMax : ℚ) : ℚ :=
  (v - srcMin) / (srcMax - srcMin) * (tgtMax - tgtMin) + tgtMin

/-- scale_rect from src/lib.rs: scale applied per axis between the min
and max corners of two rectangles. -/
def scale_rect (pos : ℚ × ℚ) (src tgt : GRect) : ℚ × ℚ :=
  (scale pos.1 src.minX src.maxX tgt.minX tgt.maxX,
   scale pos.2 src.minY src.maxY tgt.minY tgt.maxY)

/-- The scroll-zoom branch of Widget::ui (src/lib.rs lines 241-258):
when the cursor hovers at pos and |raw scroll delta| ≥ 0.01, record the
cursor's normalized position, add dy·0.01 to zoom, clamp zoom to
[0.75, 20.1], recompute the cursor's normalized position, and shift the
center by the difference. The center is not clamped in this branch. -/
def zoom_step (tileSize w h : ℚ) (pos : ℚ × ℚ) (dy : ℚ) (s : ViewState) : ViewState :=
  if 1/100 ≤ |dy| then
    let vr := view_rect w h
    let dt := desired_tiles w h tileSize
    let nr := norm_rect s.x s.y s.zoom dt
    let pointerNorm := scale_rect pos vr nr
    let zoom1 := clampQ (s.zoom + dy * (1/100)) (3/4) (201/10)
    let nr2 := norm_rect s.x s.y zoom1 dt
    let newPointerNorm := scale_rect pos vr nr2
    ⟨zoom1, s.x + (pointerNorm.1 - newPointerNorm.1),
      s.y + (pointerNorm.2 - newPointerNorm.2)⟩
  else s

/-- The drag-pan branch of Widget::ui (src/lib.rs lines 361-375): when
the drag delta is nonzero, rescale it from pixels to the visible
normalized extent (east..west, south..north of the current norm_rect),
subtract it from the center, and clamp each center axis to [0,1]. -/
def pan_step (tileSize w h : ℚ) (drag : ℚ × ℚ) (s : ViewState) : ViewState :=
  if drag = (0, 0) then s
  else
    let dt := desired_tiles w h tileSize
    let nr := norm_rect s.x s.y s.zoom dt
    let dx := scale drag.1 0 w 0 (nr.maxX - nr.minX)
    let dy := scale drag.2 0 h 0 (nr.maxY - nr.minY)
    ⟨s.zoom, clampQ (s.x - dx) 0 1, clampQ (s.y - dy) 0 1⟩

/-! ## The caching tile loader (src/tile_loader.rs, CachingTileLoader) -/

/-- The per-tile fetch state of the loader's shared table. Images are
abstracted to Nat identifiers (a decoded raster's identity is all the
claims need). -/
inductive Fetch where
  | pending
  | done (img : Nat)
deriving DecidableEq, Repr

/-- A queued fetch request: the (TileId, String url) pair sent over the
mpsc channel (the egui Context wake handle is irrelevant to the claims
and omitted). -/
structure Req where
  tile : TileId
  url : String
deriving DecidableEq, Repr

/-- The loader's observable state: the shared TileId→Fetch HashMap
(as an association list, newest entry first) and the FIFO channel of
queued requests. -/
structure LoaderState where
  tiles : List (TileId × Fetch)
  queue : List Req
deriving DecidableEq, Repr

/-- HashMap::get on the association-list model. -/
def lookupFetch : List (TileId × Fetch) → TileId → Option Fetch
  | [], _ => none
  | (k, v) :: rest, t => if k = t then some v else lookupFetch rest t

/-- HashMap::insert on the association-list model: the new entry
shadows any older one. -/
def insertFetch (m : List (TileId × Fetch)) (t : TileId) (f : Fetch) :
    List (TileId × Fetch) := (t, f) :: m

/-- The on-disk cache: a map from path strings to raw byte payloads
(bytes abstracted as List Nat). -/
def lookupDisk : List (String × List Nat) → String → Option (List Nat)
  | [], _ => none
  | (k, v) :: rest, p => if k = p then some v else lookupDisk rest p

/-- tokio::fs::write: the new file shadows any older one at the path. -/
def insertDisk (d : List (String × List Nat)) (p : String) (b : List Nat) :
    List (String × List Nat) := (p, b) :: d

/-- The deterministic cache path cache_dir.join(format of z/x/y) built in
CachingTileLoader::new (src/tile_loader.rs lines 169-170). -/
def tile_path (root : String) (t : TileId) : String :=
  root ++ "/" ++ toString t.z ++ "/" ++ toString t.x ++ "/" ++ toString t.y

/-- The environment the background pipeline runs against: the HTTP
oracle maps a url to a status code and body, and decode models
image::load_from_memory (none = decode failure, which panics the
blocking task in the source, so nothing is published). -/
structure FetchEnv where
  http : String → Nat × List Nat
  decode : List Nat → Option Nat

/-- reqwest StatusCode::is_success: 200 ≤ status ≤ 299. -/
def statusSuccess (s : Nat) : Bool := 200 ≤ s && s < 300

/-- The result of one spawned fetch pipeline: the updated shared table,
the updated disk cache, and how many network requests were issued. -/
structure PipelineResult where
  tiles : List (TileId × Fetch)
  disk : List (String × List Nat)
  fetches : Nat
deriving Repr

/-- The spawned fetch task of CachingTileLoader::new (src/tile_loader.rs
lines 165-233): check the deterministic disk path; on a hit, read and
decode the cached bytes and publish Done (no network). On a miss, issue
the HTTP GET; if the status is a success, write the raw body to the
disk path (creating directories), then decode and publish Done; on a
non-success status, do nothing (the tile's entry is left as it was). -/
def run_pipeline (root : String) (env : FetchEnv)
    (tiles : List (TileId × Fetch)) (disk : List (String × List Nat))
    (req : Req) : PipelineResult :=
  let path := tile_path root req.tile
  match lookupDisk disk path with
  | some b =>
    match env.decode b with
    | some img => ⟨insertFetch tiles req.tile (.done img), disk, 0⟩
    | none => ⟨tiles, disk, 0⟩
  | none =>
    let r := env.http req.url
    if statusSuccess r.1 then
      let disk2 := insertDisk disk path r.2
      match env.decode r.2 with
      | some img => ⟨insertFetch tiles req.tile (.done img), disk2, 1⟩
      | none => ⟨tiles, disk2, 1⟩
    else ⟨tiles, disk, 1⟩

/-- CachingTileLoader::tile (src/tile_loader.rs lines 244-254), the
try_get operation: a Pending entry yields None; a Done entry yields the
cached image; no entry yields None after sending the request over the
channel. The table itself is never written by this method. -/
def loader_tile (s : LoaderState) (url : String) (t : TileId) :
    Option Nat × LoaderState :=
  match lookupFetch s.tiles t with
  | some .pending => (none, s)
  | some (.done img) => (some img, s)
  | none => (none, ⟨s.tiles, s.queue ++ [⟨t, url⟩]⟩)

/-- One turn of the worker loop in CachingTileLoader::new (lines
154-234): receive the next queued request, insert Pending for its tile,
and run the spawned fetch pipeline (this models the schedule in which
the spawned task completes before the next receive). -/
structure WorkerOut where
  state : LoaderState
  disk : List (String × List Nat)
  fetches : Nat
deriving Repr

def worker_step (root : String) (env : FetchEnv) (s : LoaderState)
    (disk : List (String × List Nat)) : WorkerOut :=
  match s.queue with
  | [] => ⟨s, disk, 0⟩
  | req :: rest =>
    let tiles1 := insertFetch s.tiles req.tile .pending
    let p := run_pipeline root env tiles1 disk req
    ⟨⟨p.tiles, rest⟩, p.disk, p.fetches⟩

/-! ## The visual surface: EMap::find_texture_handle (src/lib.rs 167-212) -/

/-- state.registered_tile_textures.get on the association-list model
(texture handles abstracted to Nat). -/
def lookupTex : List (TileId × Nat) → TileId → Option Nat
  | [], _ => none
  | (k, v) :: rest, t => if k = t then some v else lookupTex rest t

/-- The ancestor-fallback loop of find_texture_handle (lines 199-209):
break as soon as the current ancestor's z is 0; otherwise return the
ancestor's registered texture with the accumulated uv if present, else
step to the next ancestor via zoom_out_with_uv. The second component
collects the tiles on which zoom_out_with_uv is invoked. -/
def fallback_loop (registered : List (TileId × Nat)) (t : TileId) (uv : Rect) :
    Option (Nat × Rect) × List TileId :=
  if t.z = 0 then (none, [])
  else
    match lookupTex registered t with
    | some h => (some (h, uv), [])
    | none =>
      let s := t.zoom_out_with_uv uv
      let r := fallback_loop registered s.1 s.2
      (r.1, t :: r.2)
termination_by t.z
decreasing_by simp [TileId.zoom_out_with_uv]; omega

/-- EMap::find_texture_handle: return the registered texture with the
identity uv if present; otherwise ask the loader (modelled as a
function from url and TileId to an optional image) with the tile's own
url, register and return a fresh handle on success; otherwise walk the
ancestors. Returns (result, updated texture registry, the list of tiles
passed to zoom_out_with_uv). -/
def find_texture_handle (loader : String → TileId → Option Nat)
    (urlOf : TileId → String) (fresh : Nat)
    (registered : List (TileId × Nat)) (tile : TileId) :
    Option (Nat × Rect) × List (TileId × Nat) × List TileId :=
  match lookupTex registered tile with
  | some h => (some (h, unitRect), registered, [])
  | none =>
    match loader (urlOf tile) tile with
    | some _ => (some (fresh, unitRect), (tile, fresh) :: registered, [])
    | none =>
      let s := tile.zoom_out_with_uv unitRect
      let r := fallback_loop registered s.1 s.2
      (r.1, registered, tile :: r.2)

/-- DummyLoader::tile (src/tile_loader.rs lines 20-25): always returns
Some of the fixed egui example image, for every url and tile. -/
def exampleImage : Nat := 0

def dummy_tile (_url : String) (_t : TileId) : Option Nat := some exampleImage

/-! ## Projection (src/lib.rs 433-468) and tile enumeration (486-513) -/

/-- normalized_mercator from src/lib.rs: a (lon, lat) pair in degrees to
the normalized [0,1]² Web-Mercator plane. f64::to_radians multiplies by
π/180; the modelling is over ℝ. -/
noncomputable def normalized_mercator (p : ℝ × ℝ) : ℝ × ℝ :=
  (1/2 + p.1 / 360,
   1/2 - Real.arsinh (Real.tan (p.2 * (Real.pi / 180))) / (2 * Real.pi))

/-- reverse_normalized_mercator from src/lib.rs: the inverse map back to
(lon, lat) degrees. f64::to_degrees multiplies by 180/π. -/
noncomputable def reverse_normalized_mercator (p : ℝ × ℝ) : ℝ × ℝ :=
  ((p.1 - 1/2) * 360,
   Real.arctan (Real.sinh ((1/2 - p.2) * (2 * Real.pi))) * (180 / Real.pi))

/-- tile_coords from src/lib.rs: the projected point scaled by 2^zoom. -/
noncomputable def tile_coords (p : ℝ × ℝ) (zoom : Nat) : ℝ × ℝ :=
  ((normalized_mercator p).1 * 2 ^ zoom, (normalized_mercator p).2 * 2 ^ zoom)

/-- Rust `as i32` on an f64: truncation toward zero. -/
noncomputable def rust_trunc (r : ℝ) : ℤ := if 0 ≤ r then ⌊r⌋ else -⌊-r⌋

/-- TileId::from_point_and_zoom from src/lib.rs. -/
noncomputable def from_point_and_zoom (p : ℝ × ℝ) (zoom : Nat) : TileId :=
  ⟨rust_trunc (tile_coords p zoom).1, rust_trunc (tile_coords p zoom).2, zoom⟩

/-- The inclusive integer range a..=b of the Rust for loops. -/
def rangeIncl (a b : ℤ) : List ℤ :=
  (List.range (b + 1 - a).toNat).map (fun i => a + i)

/-- TileId::from_bounds from src/lib.rs (lines 486-513): normalize the
two corners into a geographic box, convert both corners to tiles at the
zoom, then enumerate the inclusive x/y ranges dilated by the padding,
skipping tiles outside [0, 2^zoom) on either axis (row-major, x outer).
-/
noncomputable def from_bounds (p1 p2 : ℝ × ℝ) (zoom : Nat) (padding : ℤ) :
    List TileId :=
  let leftX := min p1.1 p2.1
  let rightX := max p1.1 p2.1
  let topY := max p1.2 p2.2
  let bottomY := min p1.2 p2.2
  let tl := from_point_and_zoom (leftX, topY) zoom
  let br := from_point_and_zoom (rightX, bottomY) zoom
  let n : ℤ := 2 ^ zoom
  (rangeIncl (tl.x - padding) (br.x + padding)).flatMap fun x =>
    (rangeIncl (tl.y - padding) (br.y + padding)).filterMap fun y =>
      if 0 ≤ x ∧ x < n ∧ 0 ≤ y ∧ y < n then some ⟨x, y, zoom⟩ else none

/-- Wrapping u8 subtraction, the release-build semantics of the
source's `self.z - 1` on a u8 (a debug build panics on overflow
instead). -/
def u8_sub (a b : Nat) : Nat := (a + (256 - b % 256)) % 256

/-- Rust `as u8` on an f64: truncation toward zero, saturating to
[0, 255]; this is `state.zoom as u8` in Widget::ui line 281. -/
def rust_cast_u8 (q : ℚ) : Nat :=
  if q ≤ 0 then 0 else if 255 ≤ q then 255 else (⌊q⌋).toNat

/-! ## Helper lemmas -/

lemma le_clampQ (v lo hi : ℚ) : lo ≤ clampQ v lo hi := le_max_left _ _

lemma clampQ_le (v lo hi : ℚ) (h : lo ≤ hi) : clampQ v lo hi ≤ hi :=
  max_le h (min_le_right _ _)

lemma max_center (c e : ℚ) : max (c - e) (c + e) = c + |e| := by
  rcases le_total 0 e with h | h
  · rw [max_eq_right (by linarith), abs_of_nonneg h]
  · rw [max_eq_left (by linarith), abs_of_nonpos h]; ring

lemma min_center (c e : ℚ) : min (c - e) (c + e) = c - |e| := by
  rcases le_total 0 e with h | h
  · rw [min_eq_left (by linarith), abs_of_nonneg h]
  · rw [min_eq_right (by linarith), abs_of_nonpos h]; ring

lemma max_center2 (c e : ℚ) : max (c + e) (c - e) = c + |e| := by
  rw [max_comm, max_center]

lemma min_center2 (c e : ℚ) : min (c + e) (c - e) = c - |e| := by
  rw [min_comm, min_center]

/-! ## Claim theorems -/

/-- C1 counterexample: starting from an empty loader, two try_get calls
in rapid succession (before the background worker has dequeued
anything) for the same unseen TileId both return None, both enqueue a
request (queue length 2), and leave no Pending entry in the state
table; processing the two queued requests then issues two network
fetches, not one. This refutes the claim that try_get synchronously
inserts a Pending entry before returning None and that two rapid calls
trigger exactly one background fetch. -/
theorem C1_counterexample :
    (loader_tile ⟨[], []⟩ "u" ⟨0, 0, 1⟩).1 = none ∧
    (loader_tile (loader_tile ⟨[], []⟩ "u" ⟨0, 0, 1⟩).2 "u" ⟨0, 0, 1⟩).1 = none ∧
    (loader_tile (loader_tile ⟨[], []⟩ "u" ⟨0, 0, 1⟩).2 "u" ⟨0, 0, 1⟩).2.queue.length
      = 2 ∧
    lookupFetch
      (loader_tile (loader_tile ⟨[], []⟩ "u" ⟨0, 0, 1⟩).2 "u" ⟨0, 0, 1⟩).2.tiles
      ⟨0, 0, 1⟩ = none ∧
    (worker_step "c" ⟨fun _ => (404, []), fun _ => none⟩
        (loader_tile (loader_tile ⟨[], []⟩ "u" ⟨0, 0, 1⟩).2 "u" ⟨0, 0, 1⟩).2
        []).fetches
      + (worker_step "c" ⟨fun _ => (404, []), fun _ => none⟩
          (worker_step "c" ⟨fun _ => (404, []), fun _ => none⟩
            (loader_tile (loader_tile ⟨[], []⟩ "u" ⟨0, 0, 1⟩).2 "u" ⟨0, 0, 1⟩).2
            []).state
          (worker_step "c" ⟨fun _ => (404, []), fun _ => none⟩
            (loader_tile (loader_tile ⟨[], []⟩ "u" ⟨0, 0, 1⟩).2 "u" ⟨0, 0, 1⟩).2
            []).disk).fetches = 2 := by
  decide

/-- C1 amended: try_get never writes the state table; for an unseen
TileId it returns None and appends the request to the worker queue
(so a second call before the worker runs enqueues a second request);
for an existing entry it leaves the state unchanged; the Pending mark
is inserted by the background worker when it dequeues a request. -/
theorem C1_amended_async_pending :
    (∀ (s : LoaderState) (url : String) (t : TileId),
      (loader_tile s url t).2.tiles = s.tiles) ∧
    (∀ (s : LoaderState) (url : String) (t : TileId),
      lookupFetch s.tiles t = none →
      loader_tile s url t = (none, ⟨s.tiles, s.queue ++ [⟨t, url⟩]⟩)) ∧
    (∀ (s : LoaderState) (url : String) (t : TileId) (f : Fetch),
      lookupFetch s.tiles t = some f → (loader_tile s url t).2 = s) ∧
    (∀ (tiles : List (TileId × Fetch)) (t : TileId),
      lookupFetch (insertFetch tiles t .pending) t = some .pending) := by
  refine ⟨?_, ?_, ?_, ?_⟩
  · intro s url t
    rcases h : lookupFetch s.tiles t with _ | f
    · simp [loader_tile, h]
    · cases f <;> simp [loader_tile, h]
  · intro s url t h
    simp [loader_tile, h]
  · intro s url t f h
    cases f <;> simp [loader_tile, h]
  · intro tiles t
    simp [insertFetch, lookupFetch]

/-- C1 amended witness: the amended theorem applied at a concrete
unseen tile. -/
theorem C1_amended_witness :
    loader_tile ⟨[], []⟩ "w" ⟨0, 0, 2⟩ = (none, ⟨[], [⟨⟨0, 0, 2⟩, "w"⟩]⟩) :=
  C1_amended_async_pending.2.1 ⟨[], []⟩ "w" ⟨0, 0, 2⟩ rfl

/-- C2: evaluating the code at the failing input. Applying
zoom_out_with_uv twice to tile (1, 0, 2) starting from the identity UV
rectangle yields the expected ancestor (0, 0, 0), but the accumulated
UV rectangle covers x ∈ [1/2, 3/4], whereas the sub-region of the root
tile actually covered by tile (1, 0, 2) is x ∈ [1/4, 1/2]: the
composition selects quadrants innermost-first instead of
outermost-first. A single application (k = 1) is correct. -/
theorem C2_wrong_subregion_at_depth_two :
    (zoom_out_iter 2 (⟨1, 0, 2⟩, unitRect)).1 = ⟨0, 0, 0⟩ ∧
    (zoom_out_iter 2 (⟨1, 0, 2⟩, unitRect)).2 = ⟨1/2, 0, 3/4, 1/4⟩ ∧
    correct_subrect ⟨1, 0, 2⟩ 2 = ⟨1/4, 0, 1/2, 1/4⟩ ∧
    (zoom_out_iter 2 (⟨1, 0, 2⟩, unitRect)).2 ≠ correct_subrect ⟨1, 0, 2⟩ 2 ∧
    (zoom_out_iter 1 (⟨1, 0, 2⟩, unitRect)).2 = correct_subrect ⟨1, 0, 2⟩ 1 := by
  refine ⟨?_, ?_, ?_, ?_, ?_⟩ <;>
    norm_num [zoom_out_iter, TileId.zoom_out_with_uv, unitRect, Rect.width,
      Rect.height, correct_subrect, Rect.mk.injEq,
      (by decide : Int.tmod 1 2 = 1), (by decide : Int.tdiv 1 2 = 0)]

/-- C3 counterexample: the loader's state table holds Done for the
parent tile (0,0,1) (try_get for it returns the raster), the widget's
registered-texture map is empty, and try_get for the child (0,0,2)
returns None; yet find_texture_handle returns None — the fallback walk
never calls try_get for the ancestors, so the Done ancestor in the
loader's table is not found. -/
theorem C3_counterexample :
    (loader_tile ⟨[(⟨0, 0, 1⟩, .done 7)], []⟩ "u" ⟨0, 0, 1⟩).1 = some 7 ∧
    (find_texture_handle
        (fun url t => (loader_tile ⟨[(⟨0, 0, 1⟩, .done 7)], []⟩ url t).1)
        (fun _ => "u") 9 [] ⟨0, 0, 2⟩).1 = none := by
  constructor
  · simp [loader_tile, lookupFetch]
  · simp [find_texture_handle, fallback_loop, lookupTex, loader_tile,
      lookupFetch, TileId.zoom_out_with_uv]

/-- C3 amended: on a miss, the fallback walk consults only the widget's
registered-texture map — the result of find_texture_handle depends on
the loader only through its answer for the requested tile itself — and
the walk stops without checking a zoom-0 ancestor, returning the first
registered ancestor with z ≥ 1 together with the accumulated UV
rectangle. -/
theorem C3_amended_registered_only :
    (∀ (L1 L2 : String → TileId → Option Nat) (urlOf : TileId → String)
        (fresh : Nat) (registered : List (TileId × Nat)) (tile : TileId),
      L1 (urlOf tile) tile = L2 (urlOf tile) tile →
      find_texture_handle L1 urlOf fresh registered tile
        = find_texture_handle L2 urlOf fresh registered tile) ∧
    (∀ (registered : List (TileId × Nat)) (t : TileId) (uv : Rect),
      t.z = 0 → fallback_loop registered t uv = (none, [])) ∧
    (∀ (registered : List (TileId × Nat)) (t : TileId) (uv : Rect) (h : Nat),
      t.z ≠ 0 → lookupTex registered t = some h →
      fallback_loop registered t uv = (some (h, uv), [])) := by
  refine ⟨?_, ?_, ?_⟩
  · intro L1 L2 urlOf fresh registered tile heq
    simp only [find_texture_handle, heq]
  · intro registered t uv h
    simp [fallback_loop, h]
  · intro registered t uv h hz hl
    simp [fallback_loop, hz, hl]

/-- C3 amended witness: the amended theorem applied at concrete
inputs discharging each hypothesis. -/
theorem C3_amended_witness :
    find_texture_handle (fun _ _ => some 3) (fun _ => "") 1 [] ⟨0, 0, 3⟩
      = find_texture_handle (fun _ _ => some 3) (fun _ => "") 1 [] ⟨0, 0, 3⟩ ∧
    fallback_loop [] ⟨0, 0, 0⟩ unitRect = (none, []) ∧
    fallback_loop [(⟨1, 1, 1⟩, 4)] ⟨1, 1, 1⟩ unitRect = (some (4, unitRect), []) :=
  ⟨C3_amended_registered_only.1 _ _ _ 1 [] ⟨0, 0, 3⟩ rfl,
   C3_amended_registered_only.2.1 [] ⟨0, 0, 0⟩ unitRect rfl,
   C3_amended_registered_only.2.2 [(⟨1, 1, 1⟩, 4)] ⟨1, 1, 1⟩ unitRect 4
     (by decide) (by decide)⟩

/-- C4 counterexample: from the valid state (zoom 1, center (0, 1/2)),
one scroll step (dy = 100, cursor at the window corner (0,0), 512×512
viewport, 256-pixel tiles) ends with center x = -1/4 ∉ [0,1]: the zoom
branch updates the center without clamping it. All inputs are dyadic,
so the ℚ evaluation equals the source's f64 evaluation. -/
theorem C4_counterexample :
    (0 ≤ (0 : ℚ) ∧ (0 : ℚ) ≤ 1) ∧ (0 ≤ (1/2 : ℚ) ∧ (1/2 : ℚ) ≤ 1) ∧
    (3/4 ≤ (1 : ℚ) ∧ (1 : ℚ) ≤ 201/10) ∧
    zoom_step 256 512 512 (0, 0) 100 ⟨1, 0, 1/2⟩ = ⟨2, -1/4, 1/4⟩ ∧
    ¬ (0 ≤ (zoom_step 256 512 512 (0, 0) 100 ⟨1, 0, 1/2⟩).x) := by
  refine ⟨by norm_num, by norm_num, by norm_num, ?_, ?_⟩ <;>
    norm_num [zoom_step, view_rect, desired_tiles, norm_rect, scale_rect,
      scale, geoRectNew, clampQ, pow2]

/-- C4 amended: pan is total and always ends with the center clamped to
[0,1] on each axis without touching the zoom, and the zoom event always
ends with zoom clamped to [0.75, 20.1]; but the zoom event does not
clamp the center, which can leave [0,1] (see the counterexample). -/
theorem C4_amended_totality :
    (∀ (tileSize w h : ℚ) (drag : ℚ × ℚ) (s : ViewState),
      0 ≤ s.x → s.x ≤ 1 → 0 ≤ s.y → s.y ≤ 1 →
      0 ≤ (pan_step tileSize w h drag s).x ∧
        (pan_step tileSize w h drag s).x ≤ 1 ∧
        0 ≤ (pan_step tileSize w h drag s).y ∧
        (pan_step tileSize w h drag s).y ≤ 1 ∧
        (pan_step tileSize w h drag s).zoom = s.zoom) ∧
    (∀ (tileSize w h : ℚ) (pos : ℚ × ℚ) (dy : ℚ) (s : ViewState),
      3/4 ≤ s.zoom → s.zoom ≤ 201/10 →
      3/4 ≤ (zoom_step tileSize w h pos dy s).zoom ∧
        (zoom_step tileSize w h pos dy s).zoom ≤ 201/10) := by
  constructor
  · intro tileSize w h drag s hx0 hx1 hy0 hy1
    by_cases hd : drag = (0, 0)
    · simp [pan_step, hd, hx0, hx1, hy0, hy1]
    · unfold pan_step
      rw [if_neg hd]
      exact ⟨le_clampQ _ _ _, clampQ_le _ _ _ (by norm_num),
        le_clampQ _ _ _, clampQ_le _ _ _ (by norm_num), rfl⟩
  · intro tileSize w h pos dy s hz0 hz1
    by_cases hg : (1 : ℚ)/100 ≤ |dy|
    · simp only [zoom_step, if_pos hg]
      exact ⟨le_clampQ _ _ _, clampQ_le _ _ _ (by norm_num)⟩
    · simp only [zoom_step, if_neg hg]
      exact ⟨hz0, hz1⟩

/-- C4 amended witness: the amended theorem applied at concrete
inputs discharging each hypothesis. -/
theorem C4_amended_witness :
    (0 ≤ (pan_step 256 512 512 (3, 4) ⟨1, 1/2, 1/2⟩).x ∧
      (pan_step 256 512 512 (3, 4) ⟨1, 1/2, 1/2⟩).x ≤ 1 ∧
      0 ≤ (pan_step 256 512 512 (3, 4) ⟨1, 1/2, 1/2⟩).y ∧
      (pan_step 256 512 512 (3, 4) ⟨1, 1/2, 1/2⟩).y ≤ 1 ∧
      (pan_step 256 512 512 (3, 4) ⟨1, 1/2, 1/2⟩).zoom = (1 : ℚ)) ∧
    (3/4 ≤ (zoom_step 256 512 512 (7, 7) 50 ⟨1, 1/2, 1/2⟩).zoom ∧
      (zoom_step 256 512 512 (7, 7) 50 ⟨1, 1/2, 1/2⟩).zoom ≤ 201/10) :=
  ⟨C4_amended_totality.1 256 512 512 (3, 4) ⟨1, 1/2, 1/2⟩
      (by norm_num) (by norm_num) (by norm_num) (by norm_num),
   C4_amended_totality.2 256 512 512 (7, 7) 50 ⟨1, 1/2, 1/2⟩
      (by norm_num) (by norm_num)⟩

/-- C5: zoom anchoring. For every viewport, cursor position and scroll
delta, the normalized-plane point under the cursor after the zoom
event's center correction equals the point under the cursor before it
— the geographic point under the stationary cursor keeps its screen
pixel. In this exact-arithmetic model the agreement is exact, hence
within any floating-point tolerance. -/
theorem C5_zoom_anchored (tileSize w h : ℚ) (pos : ℚ × ℚ) (dy : ℚ)
    (s : ViewState) :
    scale_rect pos (view_rect w h)
      (norm_rect (zoom_step tileSize w h pos dy s).x
        (zoom_step tileSize w h pos dy s).y
        (zoom_step tileSize w h pos dy s).zoom (desired_tiles w h tileSize))
    = scale_rect pos (view_rect w h)
        (norm_rect s.x s.y s.zoom (desired_tiles w h tileSize)) := by
  by_cases hg : (1 : ℚ)/100 ≤ |dy|
  · simp only [zoom_step, if_pos hg, view_rect, norm_rect, geoRectNew,
      scale_rect, scale, desired_tiles, min_center, max_center, min_center2,
      max_center2, Prod.mk.injEq]
    exact ⟨by ring, by ring⟩
  · simp only [zoom_step, if_neg hg]

/-- C5 witness: the theorem applied at a concrete viewport and scroll. -/
theorem C5_zoom_anchored_witness :
    scale_rect (100, 200) (view_rect 512 512)
      (norm_rect (zoom_step 256 512 512 (100, 200) 100 ⟨1, 1/2, 1/2⟩).x
        (zoom_step 256 512 512 (100, 200) 100 ⟨1, 1/2, 1/2⟩).y
        (zoom_step 256 512 512 (100, 200) 100 ⟨1, 1/2, 1/2⟩).zoom
        (desired_tiles 512 512 256))
    = scale_rect (100, 200) (view_rect 512 512)
        (norm_rect (1/2) (1/2) 1 (desired_tiles 512 512 256)) :=
  C5_zoom_anchored 256 512 512 (100, 200) 100 ⟨1, 1/2, 1/2⟩

/-- C6: when the disk misses and the HTTP response has a non-success
status, the pipeline leaves the state table and the disk untouched — it
never inserts Done — so the tile's entry stays Pending, and every later
try_get for that tile returns None without enqueueing anything (no
automatic retry, no error value: the caller only ever sees None). -/
theorem C6_silent_abandon :
    ∀ (root : String) (env : FetchEnv) (tiles : List (TileId × Fetch))
      (disk : List (String × List Nat)) (req : Req),
      lookupDisk disk (tile_path root req.tile) = none →
      statusSuccess (env.http req.url).1 = false →
      lookupFetch tiles req.tile = some .pending →
      (run_pipeline root env tiles disk req).tiles = tiles ∧
      (run_pipeline root env tiles disk req).disk = disk ∧
      lookupFetch (run_pipeline root env tiles disk req).tiles req.tile
        = some .pending ∧
      (∀ (q : List Req) (url2 : String),
        loader_tile ⟨(run_pipeline root env tiles disk req).tiles, q⟩ url2 req.tile
          = (none, ⟨(run_pipeline root env tiles disk req).tiles, q⟩)) := by
  intro root env tiles disk req hdisk hstat hpend
  have hrun : run_pipeline root env tiles disk req = ⟨tiles, disk, 1⟩ := by
    simp [run_pipeline, hdisk, hstat]
  refine ⟨by rw [hrun], by rw [hrun], by rw [hrun]; exact hpend, ?_⟩
  intro q url2
  rw [hrun]
  simp [loader_tile, hpend]

/-- C6 witness: the theorem applied to a concrete pending tile, a 404
response and an empty disk. -/
theorem C6_witness :
    lookupDisk [] (tile_path "c" ⟨2, 3, 4⟩) = none ∧
    statusSuccess 404 = false ∧
    lookupFetch [(⟨2, 3, 4⟩, Fetch.pending)] ⟨2, 3, 4⟩ = some .pending ∧
    loader_tile
        ⟨(run_pipeline "c" ⟨fun _ => (404, [1]), fun _ => none⟩
            [(⟨2, 3, 4⟩, Fetch.pending)] [] ⟨⟨2, 3, 4⟩, "e"⟩).tiles, []⟩ "e" ⟨2, 3, 4⟩
      = (none,
          ⟨(run_pipeline "c" ⟨fun _ => (404, [1]), fun _ => none⟩
              [(⟨2, 3, 4⟩, Fetch.pending)] [] ⟨⟨2, 3, 4⟩, "e"⟩).tiles, []⟩) :=
  ⟨by decide, by decide, by decide,
    (C6_silent_abandon "c" ⟨fun _ => (404, [1]), fun _ => none⟩
        [(⟨2, 3, 4⟩, Fetch.pending)] [] ⟨⟨2, 3, 4⟩, "e"⟩
        (by decide) (by decide) (by decide)).2.2.2 [] "e"⟩

/-- C7: the pipeline resolves tile (z, x, y) through the deterministic
path root/z/x/y. On a disk hit it issues no network fetch, leaves the
disk unchanged (no re-persist), and publishes the decode of the cached
bytes; on a disk miss with a successful response it issues one fetch
and writes the raw received body to that path before decoding (the
write happens even if decoding then fails). -/
theorem C7_disk_cache_pipeline :
    ∀ (root : String) (env : FetchEnv) (tiles : List (TileId × Fetch))
      (disk : List (String × List Nat)) (req : Req),
      (∀ b, lookupDisk disk (tile_path root req.tile) = some b →
        (run_pipeline root env tiles disk req).fetches = 0 ∧
        (run_pipeline root env tiles disk req).disk = disk ∧
        (∀ img, env.decode b = some img →
          (run_pipeline root env tiles disk req).tiles
            = insertFetch tiles req.tile (.done img))) ∧
      (lookupDisk disk (tile_path root req.tile) = none →
        statusSuccess (env.http req.url).1 = true →
        (run_pipeline root env tiles disk req).fetches = 1 ∧
        (run_pipeline root env tiles disk req).disk
          = insertDisk disk (tile_path root req.tile) (env.http req.url).2 ∧
        (∀ img, env.decode (env.http req.url).2 = some img →
          (run_pipeline root env tiles disk req).tiles
            = insertFetch tiles req.tile (.done img)) ∧
        (env.decode (env.http req.url).2 = none →
          (run_pipeline root env tiles disk req).tiles = tiles)) := by
  intro root env tiles disk req
  constructor
  · intro b hb
    refine ⟨?_, ?_, ?_⟩
    · rcases hd : env.decode b with _ | img <;> simp [run_pipeline, hb, hd]
    · rcases hd : env.decode b with _ | img <;> simp [run_pipeline, hb, hd]
    · intro img hd
      simp [run_pipeline, hb, hd]
  · intro hb hs
    refine ⟨?_, ?_, ?_, ?_⟩
    · rcases hd : env.decode (env.http req.url).2 with _ | img <;>
        simp [run_pipeline, hb, hs, hd]
    · rcases hd : env.decode (env.http req.url).2 with _ | img <;>
        simp [run_pipeline, hb, hs, hd]
    · intro img hd
      simp [run_pipeline, hb, hs, hd]
    · intro hd
      simp [run_pipeline, hb, hs, hd]

/-- C7 witness: the theorem applied to a concrete disk hit (no fetch,
disk kept, cached bytes decoded) and a concrete successful miss (one
fetch, body persisted at the deterministic path, body decoded). -/
theorem C7_witness :
    (run_pipeline "r" ⟨fun _ => (500, []), fun _ => some 5⟩ []
        [("r/1/0/0", [9])] ⟨⟨0, 0, 1⟩, "x"⟩).fetches = 0 ∧
    (run_pipeline "r" ⟨fun _ => (500, []), fun _ => some 5⟩ []
        [("r/1/0/0", [9])] ⟨⟨0, 0, 1⟩, "x"⟩).disk = [("r/1/0/0", [9])] ∧
    (run_pipeline "r" ⟨fun _ => (500, []), fun _ => some 5⟩ []
        [("r/1/0/0", [9])] ⟨⟨0, 0, 1⟩, "x"⟩).tiles
      = insertFetch [] ⟨0, 0, 1⟩ (.done 5) ∧
    (run_pipeline "s" ⟨fun _ => (200, [7]), fun _ => some 6⟩ []
        [] ⟨⟨0, 0, 1⟩, "y"⟩).fetches = 1 ∧
    (run_pipeline "s" ⟨fun _ => (200, [7]), fun _ => some 6⟩ []
        [] ⟨⟨0, 0, 1⟩, "y"⟩).disk
      = insertDisk [] (tile_path "s" ⟨0, 0, 1⟩) [7] ∧
    (run_pipeline "s" ⟨fun _ => (200, [7]), fun _ => some 6⟩ []
        [] ⟨⟨0, 0, 1⟩, "y"⟩).tiles = insertFetch [] ⟨0, 0, 1⟩ (.done 6) := by
  have h1 := (C7_disk_cache_pipeline "r" ⟨fun _ => (500, []), fun _ => some 5⟩ []
    [("r/1/0/0", [9])] ⟨⟨0, 0, 1⟩, "x"⟩).1 [9] (by decide)
  have h2 := (C7_disk_cache_pipeline "s" ⟨fun _ => (200, [7]), fun _ => some 6⟩ []
    [] ⟨⟨0, 0, 1⟩, "y"⟩).2 (by decide) (by decide)
  exact ⟨h1.1, h1.2.1, h1.2.2 5 rfl, h2.1, h2.2.1, h2.2.2.1 6 rfl⟩

/-- C8: the projection round trip. For every (lon, lat) with
|lat| < 89.9°, reverse_normalized_mercator after normalized_mercator
returns the point exactly in this real-number model, in particular
within 1e-6 in each coordinate. -/
theorem C8_roundtrip (lon lat : ℝ) (h : |lat| < 899/10) :
    |(reverse_normalized_mercator (normalized_mercator (lon, lat))).1 - lon|
      ≤ 1/1000000 ∧
    |(reverse_normalized_mercator (normalized_mercator (lon, lat))).2 - lat|
      ≤ 1/1000000 := by
  obtain ⟨hl, hr⟩ := abs_lt.mp h
  have hpi := Real.pi_pos
  have hb1 : -(Real.pi/2) < lat * (Real.pi/180) := by
    nlinarith [mul_pos (show (0:ℝ) < lat + 899/10 by linarith) hpi]
  have hb2 : lat * (Real.pi/180) < Real.pi/2 := by
    nlinarith [mul_pos (show (0:ℝ) < 899/10 - lat by linarith) hpi]
  have hx : (reverse_normalized_mercator (normalized_mercator (lon, lat))).1
      = lon := by
    simp only [normalized_mercator, reverse_normalized_mercator]
    ring
  have hy : (reverse_normalized_mercator (normalized_mercator (lon, lat))).2
      = lat := by
    simp only [normalized_mercator, reverse_normalized_mercator]
    have h2 : ((1:ℝ)/2
          - (1/2 - Real.arsinh (Real.tan (lat * (Real.pi/180))) / (2*Real.pi)))
          * (2*Real.pi)
        = Real.arsinh (Real.tan (lat * (Real.pi/180))) := by
      field_simp
    rw [h2, Real.sinh_arsinh, Real.arctan_tan hb1 hb2]
    field_simp
  rw [hx, hy]
  norm_num

/-- C8 witness: the round trip at the origin. -/
theorem C8_roundtrip_witness :
    |(0:ℝ)| < 899/10 ∧
    (|(reverse_normalized_mercator (normalized_mercator (0, 0))).1 - 0|
        ≤ 1/1000000 ∧
      |(reverse_normalized_mercator (normalized_mercator (0, 0))).2 - 0|
        ≤ 1/1000000) :=
  ⟨by norm_num, C8_roundtrip 0 0 (by norm_num)⟩

/-- C9: evaluating the code at the failing input. A viewport whose
clamped zoom is 0.75 enumerates tiles at integer zoom level 0
(state.zoom as u8 truncates 0.75 to 0), and from_bounds does produce
the zoom-0 tile (0,0,0); when that tile has no registered texture and
the loader returns None, find_texture_handle invokes zoom_out_with_uv
on the z = 0 tile (the call trace contains (0,0,0)), where the source's
u8 computation z - 1 wraps to 255 in release builds (and panics in
debug builds). This refutes the claim that zoom_out_with_uv is never
invoked at z = 0. -/
theorem C9_zoom_out_called_at_zero :
    from_bounds (0, 0) (0, 0) 0 2 = [⟨0, 0, 0⟩] ∧
    (find_texture_handle (fun _ _ => none) (fun _ => "") 0 [] ⟨0, 0, 0⟩).2.2
      = [⟨0, 0, 0⟩] ∧
    u8_sub 0 1 = 255 ∧
    rust_cast_u8 (3/4) = 0 ∧
    clampQ (3/4) (3/4) (201/10) = 3/4 := by
  have hnm : normalized_mercator (0 : ℝ × ℝ) = (1/2, 1/2) := by
    norm_num [normalized_mercator, Real.tan_zero, Real.arsinh_zero]
  have hfpz : from_point_and_zoom ((0:ℝ), (0:ℝ)) 0 = ⟨0, 0, 0⟩ := by
    norm_num [from_point_and_zoom, tile_coords, hnm, rust_trunc,
      TileId.mk.injEq, Int.floor_eq_zero_iff, Set.mem_Ico]
  refine ⟨?_, ?_, by decide, ?_, ?_⟩
  · simp only [from_bounds, min_self, max_self, hfpz]
    decide
  · simp [find_texture_handle, fallback_loop, lookupTex, TileId.zoom_out_with_uv]
  · norm_num [rust_cast_u8, Int.floor_eq_zero_iff, Set.mem_Ico]
  · rw [clampQ, min_eq_left (by norm_num : (3/4 : ℚ) ≤ 201/10), max_self]

/-- C10: the build-default DummyLoader (no tokio feature, no loader
supplied) returns Some of the fixed example image for every url and
TileId — never None, with no I/O or state — so find_texture_handle with
this loader always produces a texture and never enters the ancestor
fallback walk (the zoom_out_with_uv call trace is empty). -/
theorem C10_dummy_loader_total :
    (∀ (url : String) (t : TileId), dummy_tile url t = some exampleImage) ∧
    (∀ (urlOf : TileId → String) (fresh : Nat)
        (registered : List (TileId × Nat)) (tile : TileId),
      (find_texture_handle dummy_tile urlOf fresh registered tile).1.isSome
        = true ∧
      (find_texture_handle dummy_tile urlOf fresh registered tile).2.2 = []) := by
  constructor
  · intro url t
    rfl
  · intro urlOf fresh registered tile
    rcases h : lookupTex registered tile with _ | hh <;>
      simp [find_texture_handle, h, dummy_tile]
